import Mathlib

/-!
Verification of the aura-voice-ai signal-fusion and state-machine core.

The development shallowly embeds the `useLiveKit` hook family
(`src/src/hooks/useLiveKit.ts` and the unnamed variants `part_000`,
`part_001`, `part_002`): session state, connection-lifecycle handlers,
the inbound data-message dispatcher, the per-tick audio-analysis
pipeline, and the transcript send/rollback logic.

Numeric modelling: JavaScript doubles are modelled as rationals (`ℚ`);
byte arrays (`Uint8Array`) as `List ℕ` of values in `[0,255]`.
`Math.sqrt` has no exact rational counterpart, so the RMS value is
passed as a parameter `rms` constrained by the hypotheses `0 ≤ rms` and
`rms ^ 2 = meanSquares timeData`, which characterise the square root
exactly.
-/

namespace AuraVoice

/-- Transcript entry, from the `Message` interface of `useLiveKit.ts`:
`{ id: string; role: "user" | "assistant"; content: string; timestamp: Date }`.
Timestamps are milliseconds since epoch (`Date.now()`). -/
structure Message where
  id : String
  role : String
  content : String
  timestamp : Nat
  deriving DecidableEq, Repr

/-- The hook's reactive state, one field per `useState` cell of
`useLiveKit.ts` that the claims concern.  `robotState` and
`emotionalState` are strings, as at the JavaScript runtime (the
TypeScript enum annotation is erased and the code assigns inbound
values verbatim). -/
structure SessionState where
  isConnected : Bool
  isSpeaking : Bool
  robotState : String
  emotionalState : String
  messages : List Message
  audioLevel : ℚ
  frequency : ℚ
  deriving DecidableEq, Repr

/-- Initial values of the `useState` cells in `useLiveKit.ts`. -/
def initialState : SessionState :=
  { isConnected := false
    isSpeaking := false
    robotState := "idle"
    emotionalState := "neutral"
    messages := []
    audioLevel := 0
    frequency := 0 }

/-- The six values of the `RobotState` union type. -/
def robotStateValues : List String :=
  ["idle", "listening", "thinking", "speaking", "processing", "error"]

/-- `RoomEvent.Connected` handler (`useLiveKit.ts` lines 36-39):
`setIsConnected(true); setRobotState("listening")`. -/
def handleConnected (s : SessionState) : SessionState :=
  { s with isConnected := true, robotState := "listening" }

/-- `RoomEvent.Disconnected` handler (`useLiveKit.ts` lines 41-45):
`setIsConnected(false); setIsSpeaking(false); setRobotState("idle")`. -/
def handleDisconnected (s : SessionState) : SessionState :=
  { s with isConnected := false, isSpeaking := false, robotState := "idle" }

/-- `RoomEvent.AudioPlaybackStatusChanged` handler (`useLiveKit.ts`
lines 72-76): `isPlaying = room.canPlaybackAudio; setIsSpeaking(isPlaying);
setRobotState(isPlaying ? "speaking" : "listening")`. -/
def handleAudioPlaybackStatusChanged (canPlaybackAudio : Bool)
    (s : SessionState) : SessionState :=
  { s with isSpeaking := canPlaybackAudio
           robotState := if canPlaybackAudio then "speaking" else "listening" }

/-- Outcome of `JSON.parse` on a decoded inbound payload, as consumed by
the `DataReceived` handler of `useLiveKit.ts`: either the text was not
JSON (the inner `catch` fires), or it parsed to an object whose
`type`/`state`/`emotion`/`content` fields are each present or absent
(`Option`). -/
inductive ParsedPayload where
  | notJson
  | json (ty state emotion content : Option String)
  deriving DecidableEq, Repr

/-- `RoomEvent.DataReceived` handler of `useLiveKit.ts` (lines 100-119):
`data = JSON.parse(text); if (data.type === "state") setRobotState(data.state);
else if (data.type === "emotion") setEmotionalState(data.emotion);`
with both `catch` branches ignoring the payload.  A present `state` or
`emotion` field is assigned verbatim; an absent one assigns JavaScript
`undefined`, rendered here as the string `"undefined"`. -/
def handleDataReceived (p : ParsedPayload) (s : SessionState) : SessionState :=
  match p with
  | .notJson => s
  | .json ty st em _ =>
    if ty = some "state" then { s with robotState := st.getD "undefined" }
    else if ty = some "emotion" then { s with emotionalState := em.getD "undefined" }
    else s

/-- `Date.now().toString()`, the id generator used for every locally
created transcript entry. -/
def mkTimestampId (now : Nat) : String := toString now

/-- Optimistic transcript append performed by `sendMessage`
(`useLiveKit.ts` lines 287-295): builds
`{ id: Date.now().toString(), role: "user", content: text, timestamp: new Date() }`
and appends it with `setMessages(prev => [...prev, message])`. -/
def sendMessageAppend (now : Nat) (text : String) (prev : List Message) :
    List Message :=
  prev ++ [{ id := mkTimestampId now, role := "user", content := text,
             timestamp := now }]

/-- Transcript state after a `sendMessage` whose transmission failed
(`useLiveKit.ts` lines 295-309): the optimistic append followed by the
rollback `setMessages(prev => prev.filter(msg => msg.id !== message.id))`. -/
def sendMessageRollback (prev : List Message) (now : Nat) (text : String) :
    List Message :=
  (sendMessageAppend now text prev).filter (fun msg => msg.id ≠ mkTimestampId now)

/-- One byte of `getByteTimeDomainData` output recentred to `[-1,1]`:
`(timeDataArray[i] - 128) / 128` (`useLiveKit.ts` line 152). -/
def normalizedSample (b : ℕ) : ℚ := ((b : ℚ) - 128) / 128

/-- The `sumSquares` accumulation loop of `analyzeAudio`
(`useLiveKit.ts` lines 150-154). -/
def sumSquares (timeData : List ℕ) : ℚ :=
  timeData.foldl (fun acc b => acc + normalizedSample b * normalizedSample b) 0

/-- `sumSquares / timeDataArray.length`, the quantity whose square root
is the RMS (`useLiveKit.ts` line 155). -/
def meanSquares (timeData : List ℕ) : ℚ := sumSquares timeData / timeData.length

/-- `Math.min(rms * 2, 1)` — gain-scaled, clamped time-domain level
(`useLiveKit.ts` line 156). -/
def normalizedLevel (rms : ℚ) : ℚ := min (rms * 2) 1

/-- The `freqSum` accumulation loop over `getByteFrequencyData` output
(`useLiveKit.ts` lines 159-162). -/
def freqSum (freqData : List ℕ) : ℚ :=
  freqData.foldl (fun (acc : ℚ) (b : ℕ) => acc + (b : ℚ)) 0

/-- `freqSum / dataArray.length` (`useLiveKit.ts` line 163). -/
def freqAverage (freqData : List ℕ) : ℚ := freqSum freqData / freqData.length

/-- `Math.min(freqAverage / 128, 1)` (`useLiveKit.ts` line 164). -/
def freqLevel (freqData : List ℕ) : ℚ := min (freqAverage freqData / 128) 1

/-- `combinedLevel = normalizedLevel * 0.7 + freqLevel * 0.3`
(`useLiveKit.ts` line 167). -/
def combinedLevel (rms : ℚ) (freqData : List ℕ) : ℚ :=
  normalizedLevel rms * (7/10) + freqLevel freqData * (3/10)

/-- The dominant-bin scan of `analyzeAudio` (`useLiveKit.ts` lines
170-177): running `(maxValue, maxIndex, i)` with a strict `>` update,
so the first occurrence of the maximum wins. -/
def domScan (freqData : List ℕ) : ℕ × ℕ × ℕ :=
  freqData.foldl
    (fun acc b =>
      if b > acc.1 then (b, acc.2.2, acc.2.2 + 1) else (acc.1, acc.2.1, acc.2.2 + 1))
    (0, 0, 0)

/-- `maxIndex` after the scan. -/
def dominantIndex (freqData : List ℕ) : ℕ := (domScan freqData).2.1

/-- `normalizedFreq = maxIndex / bufferLength` (`useLiveKit.ts` line 178;
`bufferLength = frequencyBinCount = dataArray.length`). -/
def normalizedFreq (freqData : List ℕ) : ℚ :=
  (dominantIndex freqData : ℚ) / (freqData.length : ℚ)

/-- One tick of the `analyzeAudio` loop of `useLiveKit.ts` (lines
139-193) acting on the session state: publishes `combinedLevel` as the
audio level, `normalizedFreq * 3` as the frequency, and applies the
emotional heuristic (`> 0.7 → happy`, `> 0.4 → neutral`, else
unchanged).  `rms` stands for `Math.sqrt(meanSquares timeData)`. -/
def analyzeTick (rms : ℚ) (freqData : List ℕ) (s : SessionState) : SessionState :=
  let c := combinedLevel rms freqData
  { s with
    audioLevel := c
    frequency := normalizedFreq freqData * 3
    emotionalState :=
      if c > 7/10 then "happy"
      else if c > 4/10 then "neutral"
      else s.emotionalState }

/-- The `else if (!isSpeaking)` reset branch of the analysis effect
(`useLiveKit.ts` lines 203-211): `setAudioLevel(0); setFrequency(0)` and
the robot-state-dependent emotional reset. -/
def resetAnalysis (s : SessionState) : SessionState :=
  { s with
    audioLevel := 0
    frequency := 0
    emotionalState :=
      if s.robotState = "thinking" then "thinking"
      else if s.robotState = "idle" then "neutral"
      else s.emotionalState }

namespace Part002

/-- `Math.abs((timeDataArray[i] - 128) / 128)` — the `part_002` variant
takes the absolute value before squaring (`part_002` line 254). -/
def absSample (b : ℕ) : ℚ := |((b : ℚ) - 128) / 128|

/-- The `sumSquares` loop of `part_002`'s `analyzeAudio`
(lines 251-257). -/
def sumSquares (timeData : List ℕ) : ℚ :=
  timeData.foldl (fun acc b => acc + absSample b * absSample b) 0

/-- `sumSquares / timeDataArray.length` (`part_002` line 258). -/
def meanSquares (timeData : List ℕ) : ℚ := sumSquares timeData / timeData.length

/-- The running `maxAmplitude = Math.max(maxAmplitude, normalized)`
of the same loop (`part_002` line 256). -/
def maxAmplitude (timeData : List ℕ) : ℚ :=
  timeData.foldl (fun acc b => max acc (absSample b)) 0

/-- `Math.min((rms * 0.7 + maxAmplitude * 0.3) * 5, 1)`
(`part_002` line 260). -/
def normalizedLevel (rms : ℚ) (timeData : List ℕ) : ℚ :=
  min ((rms * (7/10) + maxAmplitude timeData * (3/10)) * 5) 1

/-- `Math.min(freqAverage / 128, 1)` (`part_002` lines 263-268),
identical to the canonical hook's frequency term. -/
def freqLevel (freqData : List ℕ) : ℚ :=
  min (AuraVoice.freqAverage freqData / 128) 1

/-- `combinedLevel = normalizedLevel * 0.8 + freqLevel * 0.2`
(`part_002` line 271). -/
def combinedLevel (rms : ℚ) (timeData freqData : List ℕ) : ℚ :=
  normalizedLevel rms timeData * (8/10) + freqLevel freqData * (2/10)

/-- `smoothedLevel = combinedLevel * 0.8 + lastAudioLevel * 0.2`
(`part_002` line 274). -/
def smoothedLevel (combined lastAudioLevel : ℚ) : ℚ :=
  combined * (8/10) + lastAudioLevel * (2/10)

/-- `finalLevel = smoothedLevel > 0.01 ? Math.max(smoothedLevel, 0.1)
: smoothedLevel` — the published level (`part_002` line 279). -/
def finalLevel (smoothed : ℚ) : ℚ :=
  if smoothed > 1/100 then max smoothed (1/10) else smoothed

/-- The per-tick speaking decision of `part_002` (lines 287-298):
`if (finalLevel > 0.05) setIsSpeaking(true); else if (finalLevel < 0.02)
setIsSpeaking(false); else` leave it unchanged. -/
def isSpeakingUpdate (smoothed : ℚ) (prev : Bool) : Bool :=
  if finalLevel smoothed > 1/20 then true
  else if finalLevel smoothed < 1/50 then false
  else prev

/-- The per-tick robot-state decision of `part_002` (lines 287-298):
high activity sets `"speaking"` unconditionally; very low activity sets
`"listening"` unless the current state is `"thinking"` or `"idle"`. -/
def robotStateUpdate (smoothed : ℚ) (rs : String) : String :=
  if finalLevel smoothed > 1/20 then "speaking"
  else if finalLevel smoothed < 1/50 then
    (if rs ≠ "thinking" ∧ rs ≠ "idle" then "listening" else rs)
  else rs

end Part002

namespace Part000

/-- The simulated-audio-level effect of `part_000` (lines 79-89): while
`isSpeaking` holds, every 100 ms it runs
`setAudioLevel(Math.random() * 0.5 + 0.5)`; `random` is the
`Math.random()` draw, which lies in `[0,1)`. -/
def simulatedAudioLevel (random : ℚ) : ℚ := random * (1/2) + 1/2

/-- The same effect's reset branch (`part_000` lines 86-88): when
`isSpeaking` is false the level is set to 0. -/
def simulatedReset : ℚ := 0

end Part000

namespace Part001

/-- JavaScript truthiness fallback `data.content || text` used by the
`part_001` message branch: an absent or empty `content` field falls
back to the raw decoded text. -/
def contentOrText (c : Option String) (text : String) : String :=
  match c with
  | some v => if v = "" then text else v
  | none => text

/-- The `DataReceived` handler of the `part_001` variant (lines
73-108): recognized JSON types dispatch as in the canonical hook, plus
a `"message"` branch that appends to the transcript; a payload that is
NOT JSON is appended to the transcript as a plain-text message by the
inner catch (lines 95-104, "Not JSON, treat as plain text message").
`rawText` is the decoded payload text, `now` the `Date.now()`
millisecond, `fromLocal` whether the sender's identity equals the
local participant's. -/
def handleDataReceived (p : ParsedPayload) (rawText : String) (now : Nat)
    (fromLocal : Bool) (s : SessionState) : SessionState :=
  match p with
  | .notJson =>
    { s with messages := s.messages ++
        [{ id := mkTimestampId now
           role := if fromLocal then "user" else "assistant"
           content := rawText
           timestamp := now }] }
  | .json ty st em c =>
    if ty = some "state" then { s with robotState := st.getD "undefined" }
    else if ty = some "emotion" then { s with emotionalState := em.getD "undefined" }
    else if ty = some "message" then
      { s with messages := s.messages ++
          [{ id := mkTimestampId now
             role := if fromLocal then "user" else "assistant"
             content := contentOrText c rawText
             timestamp := now }] }
    else s

end Part001

/-! ### Helper lemmas -/

lemma foldl_add_cast (f : List ℕ) (acc : ℚ) :
    f.foldl (fun (a : ℚ) (b : ℕ) => a + (b : ℚ)) acc
      = acc + (f.map (fun (b : ℕ) => (b : ℚ))).sum := by
  induction f generalizing acc with
  | nil => simp
  | cons x t ih =>
    rw [List.foldl_cons, ih, List.map_cons, List.sum_cons, add_assoc]

lemma freqSum_eq_sum (f : List ℕ) :
    freqSum f = (f.map (fun (b : ℕ) => (b : ℚ))).sum := by
  unfold freqSum
  rw [foldl_add_cast, zero_add]

lemma freqSum_nonneg (f : List ℕ) : 0 ≤ freqSum f := by
  rw [freqSum_eq_sum]
  apply List.sum_nonneg
  intro x hx
  obtain ⟨b, _, rfl⟩ := List.mem_map.mp hx
  exact Nat.cast_nonneg b

lemma freqLevel_nonneg (f : List ℕ) : 0 ≤ freqLevel f := by
  unfold freqLevel
  refine le_min ?_ zero_le_one
  refine div_nonneg ?_ (by norm_num)
  unfold freqAverage
  exact div_nonneg (freqSum_nonneg f) (Nat.cast_nonneg _)

lemma freqLevel_le_one (f : List ℕ) : freqLevel f ≤ 1 := min_le_right _ _

/-! ### Claims -/

/-- C1: on every tick of the audio-analysis loop the published
`audioLevel` — the 0.7/0.3 convex combination of the clamped
time-domain level `min(rms*2, 1)` and the clamped frequency level
`min(freqAverage/128, 1)` — lies in `[0, 1]`, and the reset path on
analysis stop publishes exactly `0`.  `rms` is `Math.sqrt` of the mean
of squares, characterised by the two hypotheses. -/
theorem audioLevel_unit_interval (timeData freqData : List ℕ) (rms : ℚ)
    (s : SessionState) (h0 : 0 ≤ rms) (_hsq : rms ^ 2 = meanSquares timeData) :
    (0 ≤ (analyzeTick rms freqData s).audioLevel
      ∧ (analyzeTick rms freqData s).audioLevel ≤ 1)
    ∧ (resetAnalysis s).audioLevel = 0 := by
  have hA : (analyzeTick rms freqData s).audioLevel = combinedLevel rms freqData := rfl
  refine ⟨?_, rfl⟩
  rw [hA]
  unfold combinedLevel normalizedLevel
  have hn0 : (0 : ℚ) ≤ min (rms * 2) 1 := le_min (by positivity) zero_le_one
  have hn1 : min (rms * 2) 1 ≤ 1 := min_le_right _ _
  have hf0 := freqLevel_nonneg freqData
  have hf1 := freqLevel_le_one freqData
  constructor
  · nlinarith
  · nlinarith

/-- Witness for C1 at the silent window `timeData = [128]`,
`freqData = []`, `rms = 0`. -/
theorem audioLevel_unit_interval_witness :
    ((0 : ℚ) ≤ 0 ∧ (0 : ℚ) ^ 2 = meanSquares [128])
    ∧ ((0 ≤ (analyzeTick 0 [] initialState).audioLevel
        ∧ (analyzeTick 0 [] initialState).audioLevel ≤ 1)
      ∧ (resetAnalysis initialState).audioLevel = 0) := by
  have hsq : (0 : ℚ) ^ 2 = meanSquares [128] := by
    norm_num [meanSquares, sumSquares, normalizedSample, List.foldl]
  exact ⟨⟨le_refl 0, hsq⟩,
    audioLevel_unit_interval [128] [] 0 initialState (le_refl 0) hsq⟩

/-- C5: a `Connected` session event from `idle` moves the Robot State
Machine to `listening`, and a `Disconnected` event from any state (in
particular each of the six enum states) moves it to `idle` and clears
`isSpeaking`. -/
theorem connect_disconnect_transitions (s : SessionState) :
    (handleConnected { s with robotState := "idle" }).robotState = "listening"
    ∧ (handleDisconnected s).robotState = "idle"
    ∧ (handleDisconnected s).isSpeaking = false :=
  ⟨rfl, rfl, rfl⟩

/-- C8 counterexample: the claim's cited `part_001` `DataReceived`
handler does not drop a payload that is not parseable as JSON — its
inner catch appends it to the transcript as a plain-text message, so
the transcript changes (from empty to one entry). -/
theorem plaintext_append_counterexample :
    (Part001.handleDataReceived .notJson "hello" 5 false initialState).messages
      = [{ id := "5", role := "assistant", content := "hello", timestamp := 5 }]
    ∧ ([{ id := "5", role := "assistant", content := "hello", timestamp := 5 }]
        : List Message) ≠ initialState.messages := by
  exact ⟨rfl, by decide⟩

/-- C8 amended: the canonical `useLiveKit.ts` handler drops both
non-JSON payloads and JSON payloads of unrecognized type with no
change to robot state, emotional state or transcript; the `part_001`
variant drops only JSON payloads of unrecognized type — a payload that
is not parseable as JSON is instead appended to the transcript as a
plain-text message (robot and emotional state still unchanged, no
error raised). -/
theorem payload_dispatch_per_variant (s : SessionState) (ty st em c : Option String)
    (rawText : String) (now : Nat) (fromLocal : Bool)
    (h1 : ty ≠ some "state") (h2 : ty ≠ some "emotion") (h3 : ty ≠ some "message") :
    (handleDataReceived .notJson s = s
      ∧ handleDataReceived (.json ty st em c) s = s)
    ∧ Part001.handleDataReceived (.json ty st em c) rawText now fromLocal s = s
    ∧ ((Part001.handleDataReceived .notJson rawText now fromLocal s).messages
        = s.messages ++ [{ id := mkTimestampId now
                           role := if fromLocal then "user" else "assistant"
                           content := rawText
                           timestamp := now }]
      ∧ (Part001.handleDataReceived .notJson rawText now fromLocal s).robotState
          = s.robotState
      ∧ (Part001.handleDataReceived .notJson rawText now fromLocal s).emotionalState
          = s.emotionalState) := by
  refine ⟨⟨rfl, ?_⟩, ?_, rfl, rfl, rfl⟩
  · simp [handleDataReceived, h1, h2]
  · simp [Part001.handleDataReceived, h1, h2, h3]

/-- Witness for the amended C8 at the unrecognized envelope type
`"bogus"` and a non-JSON payload decoding to `"hello"` at
millisecond 5 from a remote sender. -/
theorem payload_dispatch_per_variant_witness :
    (some "bogus" ≠ some "state" ∧ some "bogus" ≠ some "emotion"
      ∧ some "bogus" ≠ some "message")
    ∧ ((handleDataReceived .notJson initialState = initialState
        ∧ handleDataReceived (.json (some "bogus") none none none) initialState
            = initialState)
      ∧ Part001.handleDataReceived (.json (some "bogus") none none none)
          "hello" 5 false initialState = initialState
      ∧ ((Part001.handleDataReceived .notJson "hello" 5 false initialState).messages
          = initialState.messages ++
              [{ id := mkTimestampId 5
                 role := if false then "user" else "assistant"
                 content := "hello"
                 timestamp := 5 }]
        ∧ (Part001.handleDataReceived .notJson "hello" 5 false
            initialState).robotState = initialState.robotState
        ∧ (Part001.handleDataReceived .notJson "hello" 5 false
            initialState).emotionalState = initialState.emotionalState)) := by
  refine ⟨⟨by decide, by decide, by decide⟩, ?_⟩
  exact payload_dispatch_per_variant initialState (some "bogus") none none none
    "hello" 5 false (by decide) (by decide) (by decide)

/-- C2 counterexample: at a tick whose smoothed level is `0.03` — inside
the claimed no-flicker band `[0.02, 0.05]` — with `isSpeaking`
previously false, the code flips `isSpeaking` to true instead of
keeping the previous value, because the thresholds are tested against
`finalLevel = max(smoothedLevel, 0.1) = 0.1 > 0.05`. -/
theorem hysteresis_band_counterexample :
    (1/50 : ℚ) ≤ 3/100 ∧ (3/100 : ℚ) ≤ 1/20
    ∧ Part002.isSpeakingUpdate (3/100) false = true := by
  refine ⟨by norm_num, by norm_num, ?_⟩
  norm_num [Part002.isSpeakingUpdate, Part002.finalLevel]

/-- C2 amended: the thresholds 0.05/0.02 are applied to the published
`finalLevel`, which never lies strictly between 0.01 and 0.1; in terms
of the smoothed level the decision is therefore the single threshold
0.01: `isSpeaking` becomes true on any tick with smoothed level above
0.01 (including the entire band `[0.02, 0.05]`) and false on any tick
with smoothed level at most 0.01 — there is no hysteresis band on the
smoothed level. -/
theorem speaking_single_threshold (smoothed : ℚ) (prev : Bool) :
    Part002.isSpeakingUpdate smoothed prev = decide (1/100 < smoothed)
    ∧ ¬ (1/100 < Part002.finalLevel smoothed ∧ Part002.finalLevel smoothed < 1/10) := by
  constructor
  · unfold Part002.isSpeakingUpdate Part002.finalLevel
    by_cases h : smoothed > 1/100
    · rw [if_pos h]
      have h5 : max smoothed (1/10 : ℚ) > 1/20 :=
        lt_of_lt_of_le (by norm_num) (le_max_right _ _)
      rw [if_pos h5, decide_eq_true h]
    · rw [if_neg h]
      push_neg at h
      have h5 : ¬ (smoothed > 1/20) := by
        intro hc
        exact absurd (lt_of_lt_of_le (by norm_num) hc.le) (not_lt.mpr h)
      have h2 : smoothed < 1/50 := lt_of_le_of_lt h (by norm_num)
      rw [if_neg h5, if_pos h2, decide_eq_false (not_lt.mpr h)]
  · unfold Part002.finalLevel
    by_cases h : smoothed > 1/100
    · rw [if_pos h]
      rintro ⟨-, hlt⟩
      exact absurd (le_max_right smoothed (1/10 : ℚ)) (not_le.mpr hlt)
    · rw [if_neg h]
      push_neg at h
      rintro ⟨hgt, -⟩
      exact absurd hgt (not_lt.mpr h)

/-- C3 counterexample: from `robotState = "error"`, a playback-active
event (`AudioPlaybackStatusChanged` with `canPlaybackAudio = true`) and
an active-audio analysis tick (`part_002`, smoothed level `0.5`) each
move the state to `"speaking"` — fused-audio events do change
RobotState out of `error`. -/
theorem error_state_overridden_counterexample :
    (handleAudioPlaybackStatusChanged true
        { initialState with robotState := "error" }).robotState = "speaking"
    ∧ Part002.robotStateUpdate (1/2) "error" = "speaking"
    ∧ ("speaking" : String) ≠ "error" := by
  refine ⟨rfl, ?_, by decide⟩
  have h5 : Part002.finalLevel (1/2) > 1/20 := by
    unfold Part002.finalLevel
    rw [if_pos (by norm_num)]
    exact lt_of_lt_of_le (by norm_num) (le_max_right _ _)
  unfold Part002.robotStateUpdate
  rw [if_pos h5]

/-- C3 amended: fused-audio events are not masked by `error` or
`processing`: the playback handler unconditionally sets
`speaking`, and the `part_002` analysis tick sets `"speaking"` on any
tick with smoothed level above 0.01, whatever the current state (its
low-level branch spares only `"thinking"` and `"idle"`, not `"error"`
or `"processing"`). -/
theorem audio_events_override_error_processing (s : SessionState) (rs : String)
    (lvl : ℚ) (_hrs : rs = "error" ∨ rs = "processing") (hlvl : 1/100 < lvl) :
    Part002.robotStateUpdate lvl rs = "speaking"
    ∧ (handleAudioPlaybackStatusChanged true s).robotState = "speaking" := by
  refine ⟨?_, rfl⟩
  have h5 : Part002.finalLevel lvl > 1/20 := by
    unfold Part002.finalLevel
    rw [if_pos hlvl]
    exact lt_of_lt_of_le (by norm_num) (le_max_right _ _)
  unfold Part002.robotStateUpdate
  rw [if_pos h5]

/-- Witness for the amended C3 at `rs = "error"`, smoothed level `0.5`. -/
theorem audio_events_override_witness :
    (("error" = "error" ∨ ("error" : String) = "processing") ∧ (1/100 : ℚ) < 1/2)
    ∧ (Part002.robotStateUpdate (1/2) "error" = "speaking"
      ∧ (handleAudioPlaybackStatusChanged true initialState).robotState = "speaking") :=
  ⟨⟨Or.inl rfl, by norm_num⟩,
    audio_events_override_error_processing initialState "error" (1/2)
      (Or.inl rfl) (by norm_num)⟩

/-- C4 counterexample: the fallback path (`part_000`) synthesizes
`Math.random() * 0.5 + 0.5`; at the draw `random = 0.9` the published
level is `0.95`, outside the claimed bound `[0.2, 0.6]`. -/
theorem fallback_range_counterexample :
    Part000.simulatedAudioLevel (9/10) = 19/20
    ∧ ¬ ((19/20 : ℚ) ≤ 3/5) := by
  constructor
  · norm_num [Part000.simulatedAudioLevel]
  · norm_num

/-- C4 amended: while the fallback activity source reports the peer
active (`isSpeaking`), `part_000` publishes the synthesized level
`random * 0.5 + 0.5`, which for any `Math.random()` draw in `[0, 1)`
lies in `[0.5, 1)` and is therefore non-zero; there is no five-tick
low-signal trigger and no `[0.2, 0.6]` bound in the code. -/
theorem fallback_level_bounds (random : ℚ) (h0 : 0 ≤ random) (h1 : random < 1) :
    1/2 ≤ Part000.simulatedAudioLevel random
    ∧ Part000.simulatedAudioLevel random < 1
    ∧ Part000.simulatedAudioLevel random ≠ 0 := by
  unfold Part000.simulatedAudioLevel
  refine ⟨by nlinarith, by nlinarith, ?_⟩
  have hpos : (0 : ℚ) < random * (1/2) + 1/2 := by nlinarith
  exact hpos.ne'

/-- Witness for the amended C4 at the draw `random = 0.9`. -/
theorem fallback_level_bounds_witness :
    ((0 : ℚ) ≤ 9/10 ∧ (9/10 : ℚ) < 1)
    ∧ (1/2 ≤ Part000.simulatedAudioLevel (9/10)
      ∧ Part000.simulatedAudioLevel (9/10) < 1
      ∧ Part000.simulatedAudioLevel (9/10) ≠ 0) :=
  ⟨⟨by norm_num, by norm_num⟩,
    fallback_level_bounds (9/10) (by norm_num) (by norm_num)⟩

/-- C10: the `DataReceived` handler assigns an inbound
`{type:"state"}` envelope's `state` field to the robot state verbatim,
with no membership check against the six-value enum; in particular the
payload `{"type":"state","state":"bogus"}` drives `robotState` to
`"bogus"`, which is outside the enum. -/
theorem state_message_no_validation (v : String) (s : SessionState) :
    (handleDataReceived (.json (some "state") (some v) none none) s).robotState = v
    ∧ (handleDataReceived (.json (some "state") (some "bogus") none none) s).robotState
        = "bogus"
    ∧ "bogus" ∉ robotStateValues := by
  exact ⟨rfl, rfl, by decide⟩

/-- C6 counterexample: on the silent window `timeData = [128,128]` with
`freqData = [128,128]` (so `rms = 0`, time-domain term `0`, frequency
term `1`), the `part_002` combined estimate is `0.2` while the claimed
`0.7/0.3` blend of the same two terms is `0.3` — the variant that does
combine peak and RMS uses outer weights `0.8/0.2`, not `0.7/0.3`. -/
theorem blend_weights_counterexample :
    (0 : ℚ) ^ 2 = Part002.meanSquares [128, 128]
    ∧ Part002.combinedLevel 0 [128, 128] [128, 128] = 1/5
    ∧ (7/10 : ℚ) * Part002.normalizedLevel 0 [128, 128]
        + (3/10) * Part002.freqLevel [128, 128] = 3/10
    ∧ (1/5 : ℚ) ≠ 3/10 := by
  refine ⟨?_, ?_, ?_, by norm_num⟩
  · norm_num [Part002.meanSquares, Part002.sumSquares, Part002.absSample, List.foldl]
  · norm_num [Part002.combinedLevel, Part002.normalizedLevel, Part002.maxAmplitude,
      Part002.absSample, Part002.freqLevel, freqAverage, freqSum, List.foldl]
  · norm_num [Part002.normalizedLevel, Part002.maxAmplitude, Part002.absSample,
      Part002.freqLevel, freqAverage, freqSum, List.foldl]

/-- C6 amended: per tick the combined amplitude estimate is a weighted
blend of a gain-scaled, `[0,1]`-clamped time-domain term and the
clamped frequency-domain average — not a single raw channel — but the
two variants differ: `useLiveKit.ts` computes
`0.7·min(2·rms, 1) + 0.3·min(freqAverage/128, 1)` (weights 0.7/0.3,
RMS-only time term, gain 2), while `part_002` computes
`0.8·min(5·(0.7·rms + 0.3·peak), 1) + 0.2·min(freqAverage/128, 1)`
(peak/RMS time term, gain 5, weights 0.8/0.2). -/
theorem blend_closed_forms (rms : ℚ) (timeData freqData : List ℕ) :
    combinedLevel rms freqData
      = (7/10) * min (rms * 2) 1
        + (3/10) * min (((freqData.map (fun (b : ℕ) => (b : ℚ))).sum
            / freqData.length) / 128) 1
    ∧ Part002.combinedLevel rms timeData freqData
      = (8/10) * min ((rms * (7/10) + Part002.maxAmplitude timeData * (3/10)) * 5) 1
        + (2/10) * min (((freqData.map (fun (b : ℕ) => (b : ℚ))).sum
            / freqData.length) / 128) 1 := by
  constructor
  · unfold combinedLevel normalizedLevel freqLevel freqAverage
    rw [freqSum_eq_sum]
    ring
  · unfold Part002.combinedLevel Part002.normalizedLevel Part002.freqLevel freqAverage
    rw [freqSum_eq_sum]
    ring

/-- C7 counterexample: if the transcript already holds an entry whose
id collides with the optimistic message's id (both are
`Date.now().toString()`, so two messages in the same millisecond
collide), the send-failure rollback `filter(msg.id !== message.id)`
removes the pre-existing entry too, leaving the transcript different
from its value before the call. -/
theorem rollback_collision_counterexample :
    sendMessageRollback
        [{ id := "5", role := "assistant", content := "hello", timestamp := 0 }] 5 "hi"
      = []
    ∧ ([] : List Message)
        ≠ [{ id := "5", role := "assistant", content := "hello", timestamp := 0 }] := by
  exact ⟨rfl, by decide⟩

/-- C7 amended: when the send fails, the rollback restores the
transcript to its pre-call value provided no pre-existing entry shares
the optimistic message's id; entries sharing that id are removed along
with it. -/
theorem rollback_restores_transcript (prev : List Message) (now : Nat) (text : String)
    (h : ∀ m ∈ prev, m.id ≠ mkTimestampId now) :
    sendMessageRollback prev now text = prev := by
  unfold sendMessageRollback sendMessageAppend
  rw [List.filter_append]
  have h1 : prev.filter (fun msg => msg.id ≠ mkTimestampId now) = prev := by
    apply List.filter_eq_self.mpr
    intro m hm
    simpa using h m hm
  have h2 : List.filter (fun msg => msg.id ≠ mkTimestampId now)
      [{ id := mkTimestampId now, role := "user", content := text,
         timestamp := now }] = ([] : List Message) := by
    simp [List.filter]
  rw [h1, h2, List.append_nil]

/-- Witness for the amended C7: a transcript holding one entry with id
`"1"` survives a failed send stamped at millisecond 5 unchanged. -/
theorem rollback_restores_transcript_witness :
    (∀ m ∈ ([Message.mk "1" "assistant" "hello" 1] : List Message),
        m.id ≠ mkTimestampId 5)
    ∧ sendMessageRollback [Message.mk "1" "assistant" "hello" 1] 5 "hi"
      = [Message.mk "1" "assistant" "hello" 1] := by
  have h : ∀ m ∈ ([Message.mk "1" "assistant" "hello" 1] : List Message),
      m.id ≠ mkTimestampId 5 := by decide
  exact ⟨h, rollback_restores_transcript _ 5 "hi" h⟩

/-- C9 counterexample: two `sendMessage` calls in the same millisecond
(`Date.now() = 5`) append two distinct transcript entries that carry
the identical id `"5"` — ids are not unique within the session. -/
theorem duplicate_id_counterexample :
    sendMessageAppend 5 "b" (sendMessageAppend 5 "a" [])
      = [{ id := "5", role := "user", content := "a", timestamp := 5 },
         { id := "5", role := "user", content := "b", timestamp := 5 }]
    ∧ ({ id := "5", role := "user", content := "a", timestamp := 5 } : Message)
        ≠ { id := "5", role := "user", content := "b", timestamp := 5 }
    ∧ ({ id := "5", role := "user", content := "a", timestamp := 5 } : Message).id
        = ({ id := "5", role := "user", content := "b", timestamp := 5 } : Message).id := by
  exact ⟨rfl, by decide, rfl⟩

/-- C9 amended: transcript ids are timestamp strings, not per-session
unique: every locally created entry's id is `Date.now().toString()`, so
any two messages appended in the same millisecond share an id (inbound
text entries use the transport's `info.id` when present and fall back
to the same timestamp string). -/
theorem same_tick_ids_collide (now : Nat) (a b : String) (prev : List Message) :
    sendMessageAppend now b (sendMessageAppend now a prev)
      = prev ++ [{ id := mkTimestampId now, role := "user", content := a,
                   timestamp := now },
                 { id := mkTimestampId now, role := "user", content := b,
                   timestamp := now }]
    ∧ ({ id := mkTimestampId now, role := "user", content := a,
         timestamp := now } : Message).id
      = ({ id := mkTimestampId now, role := "user", content := b,
           timestamp := now } : Message).id := by
  refine ⟨?_, rfl⟩
  unfold sendMessageAppend
  rw [List.append_assoc]
  rfl

end AuraVoice
